import Mathlib

/-!
Verification of core behaviours of the apq (ozo) asynchronous PostgreSQL
client library: the binary value serializer, the asynchronous connect
operation, and the connection/provider acquisition layer of
`include/ozo/connection.h`.

The serializer (`ozo::send` of `ozo/io/send.h` and `ozo/io/array.h`) and the
connect operation (`ozo::impl::make_async_connect_op` of
`ozo/impl/async_connect.h`) are not present in this source snapshot; only
their unit tests are.  Those parts are modelled from the specification, with
call orderings and byte layouts fixed by the unit tests
(`tests/binary_serialization.cpp`, `tests/async_connect.cpp`).
The provider layer (`forward_connection`, `get_connection`) is embedded
directly from `include/ozo/connection.h`.
-/

namespace Apq

/-! ## Binary serialization model -/

/-- Modelled from the spec: big-endian byte framing of fixed-width integers
(`ozo/io/send.h` is absent from the snapshot).  `beBytes k n` is the `k`
network-order (big-endian) bytes of `n` modulo `2 ^ (8 * k)`. -/
def beBytes : Nat → Nat → List Nat
  | 0, _ => []
  | k + 1, n => beBytes k (n / 256) ++ [n % 256]

/-- Scalar values the binary serializer handles: single bytes stored as-is,
multi-byte integers big-endian, IEEE-754 floats by their big-endian bit
pattern, byte strings and name-typed values as-is. -/
inductive Scalar where
  | int8 (b : Nat)
  | int16 (n : Nat)
  | int32 (n : Nat)
  | int64 (n : Nat)
  | float4 (bits : Nat)
  | str (s : List Nat)
  deriving DecidableEq, Repr

/-- Values passed to `ozo::send`: scalars, the null sentinels
(`std::nullptr_t`, `std::nullopt_t`) and one-dimensional arrays tagged with
their element oid. -/
inductive Value where
  | scalar (s : Scalar)
  | nullPtr
  | nullOpt
  | array1d (elemOid : Nat) (elems : List Scalar)
  deriving DecidableEq, Repr

/-- Modelled from the spec: scalar framing of `ozo/io/send.h` (absent from
the snapshot) — single bytes as-is, multi-byte integers and float bit
patterns in network (big-endian) order, byte strings as-is. -/
def sendScalar : Scalar → List Nat
  | .int8 b => [b % 256]
  | .int16 n => beBytes 2 n
  | .int32 n => beBytes 4 n
  | .int64 n => beBytes 8 n
  | .float4 bits => beBytes 4 bits
  | .str s => s

/-- Length-prefixed element frames of a 1-D array body: each element is
preceded by the big-endian 32-bit byte length of its encoding. -/
def elemPieces : List Scalar → List (List Nat)
  | [] => []
  | e :: es => beBytes 4 (sendScalar e).length :: sendScalar e :: elemPieces es

/-- Modelled from the spec: the successive buffer writes `ozo::send` performs
for one value (`ozo/io/send.h` and `ozo/io/array.h` are absent from the
snapshot).  Null sentinels write nothing; a 1-D array writes the five-field
header `(ndim = 1, has_nulls = 0, elem_oid, dim_len, lower_bound)` followed by
length-prefixed elements.  The header field values and byte order are fixed
by `tests/binary_serialization.cpp` (ndim serialized big-endian as
`00 00 00 01`, and the fifth header word is `0`). -/
def pieces : Value → List (List Nat)
  | .scalar s => [sendScalar s]
  | .nullPtr => []
  | .nullOpt => []
  | .array1d elemOid elems =>
      [beBytes 4 1, beBytes 4 0, beBytes 4 elemOid, beBytes 4 elems.length, beBytes 4 0]
        ++ elemPieces elems

/-- Concatenation of a list of byte strings. -/
def joinL : List (List Nat) → List Nat
  | [] => []
  | l :: ls => l ++ joinL ls

/-- Modelled from the spec: the byte image `ozo::send` leaves in a fresh
buffer (`ozo/io/send.h` is absent from the snapshot). -/
def send (v : Value) : List Nat := joinL (pieces v)

/-- The exception type `ozo::system_error` thrown on stream failure. -/
inductive SysError where
  | systemError
  deriving DecidableEq, Repr

/-- Modelled from the spec: performing the successive writes of a value
against an output stream whose buffer accepts (`good = true`) or rejects
(`good = false`) writes; a rejected write raises `ozo::system_error`.
The raising contract is the one exercised by the bad-streambuf tests of
`tests/binary_serialization.cpp`. -/
def writePieces (good : Bool) (buf : List Nat) : List (List Nat) → Except SysError (List Nat)
  | [] => .ok buf
  | p :: ps => if good then writePieces good (buf ++ p) ps else .error .systemError

/-- Modelled from the spec: `ozo::send` against a stream state, returning the
new buffer contents or the raised `ozo::system_error`. -/
def sendToStream (good : Bool) (buf : List Nat) (v : Value) : Except SysError (List Nat) :=
  writePieces good buf (pieces v)

/-- Reads the big-endian 32-bit integer formed by the first four bytes of a
byte string (used to state the array-header layout). -/
def readBE32 : List Nat → Nat
  | b0 :: b1 :: b2 :: b3 :: _ => ((b0 * 256 + b1) * 256 + b2) * 256 + b3
  | _ => 0

/-- The IEEE-754 single-precision bit pattern of the literal `42.13f` used by
the serializer tests. -/
def float4213bits : Nat := 0x4228851F

/-- The PostgreSQL oid of `float4` (700), the element oid the serializer
emits for `std::vector<float>`. -/
def float4Oid : Nat := 700

/-! ## Asynchronous connect operation model -/

/-- Error codes observable through `ozo::error_code`: `ok` is the empty
(zero) error code, the named constructors are the `ozo::error` conditions of
the connect path, and `other n` stands for any other nonzero code (such as
the test-only `ozo::tests::error::error`). -/
inductive ErrorCode where
  | ok
  | pqConnectionStartFailed
  | pqConnectionStatusBad
  | pqConnectPollFailed
  | assignSocketFailed
  | other (n : Nat)
  deriving DecidableEq, Repr

/-- Results of the libpq handshake step `connect_poll()`. -/
inductive PollResult where
  | writing
  | reading
  | ok
  | failed
  | active
  deriving DecidableEq, Repr

/-- Direction of a one-shot socket readiness wait. -/
inductive WaitDir where
  | write
  | read
  deriving DecidableEq, Repr

/-- Observable events of a connect operation run: protocol prelude calls,
readiness waits started, handshake poll steps, and the posting of the
completion to the reactor. -/
inductive Event where
  | callStart (conninfo : String)
  | callAssign
  | waitWrite
  | waitRead
  | callPoll
  | post
  deriving DecidableEq, Repr

/-- The wait event of a direction. -/
def waitEv : WaitDir → Event
  | .write => .waitWrite
  | .read => .waitRead

/-- Scripted behaviour of the mocked connection: results of the preludes
`start_connection` and `assign_socket`, the connection status at entry to
the polling phase, and the successive wait completions and
`connect_poll()` results. -/
structure Script where
  startResult : ErrorCode
  assignResult : ErrorCode
  statusBad : Bool
  waitResults : List ErrorCode
  pollResults : List PollResult
  deriving DecidableEq, Repr

/-- Modelled from the spec: the polling phase of the connect operation
(`ozo/impl/async_connect.h` is absent from the snapshot; spec §4.2 PollOp).
Starting from a readiness wait in direction `d`: when the wait resolves with
an error the operation completes with that error; when it resolves `Ok` the
driver calls `connect_poll()` and on `Writing`/`Reading` starts the matching
wait, on `Ok` completes with the empty error code, and on `Failed` or
`Active` completes with `pq_connect_poll_failed`.  The result is the event
trace plus the completion (`none` when the scripted run leaves the operation
pending).  Completion is posted to the reactor (`Event.post`). -/
def runPoll : List ErrorCode → List PollResult → WaitDir → List Event × Option ErrorCode
  | [], _, d => ([waitEv d], none)
  | w :: ws, ps, d =>
      if w = ErrorCode.ok then
        match ps with
        | [] => ([waitEv d, .callPoll], none)
        | p :: ps' =>
          match p with
          | .writing =>
              ((waitEv d :: Event.callPoll :: (runPoll ws ps' .write).1), (runPoll ws ps' .write).2)
          | .reading =>
              ((waitEv d :: Event.callPoll :: (runPoll ws ps' .read).1), (runPoll ws ps' .read).2)
          | .ok => ([waitEv d, .callPoll, .post], some ErrorCode.ok)
          | .failed => ([waitEv d, .callPoll, .post], some ErrorCode.pqConnectPollFailed)
          | .active => ([waitEv d, .callPoll, .post], some ErrorCode.pqConnectPollFailed)
      else ([waitEv d, .post], some w)

/-- Modelled from the spec: the full connect operation
(`ozo::impl::make_async_connect_op(...).perform(conninfo)`;
`ozo/impl/async_connect.h` is absent from the snapshot; spec §4.3 ConnectOp).
It calls `start_connection(conninfo)` and completes immediately (posted)
with its error on failure; then completes with `pq_connection_status_bad`
if the connection status is bad; then calls `assign_socket()` and completes
immediately with its error on failure; otherwise enters the polling phase
with a first wait for write-readiness.  The order — status check after
`start_connection` and before `assign_socket`, and no initial
`connect_poll()` before the first wait — is fixed by
`tests/async_connect.cpp`. -/
def connectOp (s : Script) (conninfo : String) : List Event × Option ErrorCode :=
  if s.startResult ≠ ErrorCode.ok then
    ([.callStart conninfo, .post], some s.startResult)
  else if s.statusBad then
    ([.callStart conninfo, .post], some ErrorCode.pqConnectionStatusBad)
  else if s.assignResult ≠ ErrorCode.ok then
    ([.callStart conninfo, .callAssign, .post], some s.assignResult)
  else
    ((Event.callStart conninfo :: Event.callAssign ::
        (runPoll s.waitResults s.pollResults .write).1),
      (runPoll s.waitResults s.pollResults .write).2)

/-- Whether an event is the start of a readiness wait. -/
def isWaitEvent : Event → Bool
  | .waitWrite => true
  | .waitRead => true
  | _ => false

/-- The first readiness wait started in a trace, if any. -/
def firstWait (es : List Event) : Option Event := (es.filter isWaitEvent).head?

/-- Number of readiness waits started in a trace. -/
def countWait (es : List Event) : Nat := (es.filter isWaitEvent).length

/-- Number of `connect_poll()` steps invoked in a trace. -/
def countPoll (es : List Event) : Nat := (es.filter (· = Event.callPoll)).length

/-! ## Connection and provider layer (embedded from `include/ozo/connection.h`) -/

/-- The `ozo::connection` state relevant to the provider layer: the native
handle (None models a null handle), the bound executor (identified by an
id), the opaque oid map and statistics payloads, and the error-context
string (fields of `ozo::connection`, `connection.h`). -/
structure Connection where
  handle : Option Nat
  executorId : Nat
  oidMap : Nat
  statistics : Nat
  errorContext : String
  deriving DecidableEq, Repr

/-- `ozo::connection::set_error_context` (`connection.h` line 159): replaces
the error-context string; the C++ default argument is the empty string. -/
def set_error_context (c : Connection) (v : String) : Connection :=
  { c with errorContext := v }

/-- `ozo::connection::get_executor` (`connection.h` line 166). -/
def get_executor (c : Connection) : Nat := c.executorId

/-- A completion dispatched to an executor: the executor it runs on, the
error code, and the value handed to the handler. -/
structure Dispatched (α : Type) where
  executor : Nat
  ec : ErrorCode
  value : α
  deriving DecidableEq, Repr

/-- The time-constraint sum type used by the acquisition layer:
`ozo::none`, a relative duration, or an absolute time point. -/
inductive TimeConstraint where
  | none
  | duration (d : Nat)
  | timePoint (t : Nat)
  deriving DecidableEq, Repr

/-- `ozo::detail::forward_connection` (`connection.h` lines 606-614): using a
Connection itself as a provider resets its error context to the default
empty string, reads its executor, and dispatches the handler on that
executor with an empty error code and the connection itself.  The time
constraint is ignored. -/
def forward_connection (c : Connection) (_t : TimeConstraint) : Dispatched Connection :=
  let c' := set_error_context c ""
  ⟨get_executor c', ErrorCode.ok, c'⟩

/-- A connection provider: either a Connection used as its own provider
(pass-through) or a source-backed provider with its own
`async_get_connection` behaviour. -/
inductive Provider where
  | connection (c : Connection)
  | source (f : TimeConstraint → Dispatched Connection)

/-- `ozo::async_get_connection` (`connection.h` lines 711-718): dispatches on
the provider kind via `async_get_connection_impl` — `forward_connection` for
a Connection, the provider's own `async_get_connection` otherwise. -/
def async_get_connection : Provider → TimeConstraint → Dispatched Connection
  | .connection c, t => forward_connection c t
  | .source f, t => f t

/-- `ozo::get_connection_op::operator()(provider, t, token)`
(`connection.h` lines 850-857): initiates `async_get_connection` with the
given time constraint. -/
def get_connection (p : Provider) (t : TimeConstraint) : Dispatched Connection :=
  async_get_connection p t

/-- `ozo::get_connection_op::operator()(provider, token)`
(`connection.h` lines 859-862): the overload without a time constraint
forwards to the full overload with `ozo::none`. -/
def get_connection_no_tc (p : Provider) : Dispatched Connection :=
  get_connection p TimeConstraint.none

/-! ## Helper lemmas -/

/-- Explicit form of the four big-endian bytes of a 32-bit word. -/
theorem beBytes_four (n : Nat) :
    beBytes 4 n =
      [n / 256 / 256 / 256 % 256, n / 256 / 256 % 256, n / 256 % 256, n % 256] := rfl

/-- Reading back the big-endian 32-bit frame recovers the value modulo `2^32`. -/
theorem readBE32_beBytes (n : Nat) (rest : List Nat) :
    readBE32 (beBytes 4 n ++ rest) = n % 4294967296 := by
  rw [beBytes_four]
  show ((n / 256 / 256 / 256 % 256 * 256 + n / 256 / 256 % 256) * 256
      + n / 256 % 256) * 256 + n % 256 = n % 4294967296
  omega

/-- The encoded form of a 1-D array: five header words then the element body. -/
theorem send_array1d (oid : Nat) (es : List Scalar) :
    send (Value.array1d oid es) =
      beBytes 4 1 ++ (beBytes 4 0 ++ (beBytes 4 oid ++ (beBytes 4 es.length ++
        (beBytes 4 0 ++ joinL (elemPieces es))))) := by
  simp [send, pieces, joinL]

/-! ## Serialization claims -/

/-- C3 (counterexample): encoding the one-element float array `[42.13f]` does
not produce the byte sequence claimed, whose first group `01 00 00 00` is the
little-endian image of `ndim = 1`; the serializer writes the group
big-endian as `00 00 00 01`. -/
theorem send_float_array_claimed_bytes_false :
    send (Value.array1d float4Oid [Scalar.float4 float4213bits]) ≠
      [0x01, 0, 0, 0,  0, 0, 0, 0,  0, 0, 0x02, 0xBC,  0, 0, 0, 1,
       0, 0, 0, 0,  0, 0, 0, 4,  0x42, 0x28, 0x85, 0x1F] := by decide

/-- C3 (amended): encoding the one-element float array `[42.13f]` produces
exactly the bytes `00 00 00 01 | 00 00 00 00 | 00 00 02 BC | 00 00 00 01 |
00 00 00 00 | 00 00 00 04 | 42 28 85 1F`, the first group being the
big-endian encoding of `ndim = 1`. -/
theorem send_float_array_bytes :
    send (Value.array1d float4Oid [Scalar.float4 float4213bits]) =
      [0, 0, 0, 1,  0, 0, 0, 0,  0, 0, 0x02, 0xBC,  0, 0, 0, 1,
       0, 0, 0, 0,  0, 0, 0, 4,  0x42, 0x28, 0x85, 0x1F] := by decide

/-- C4 (counterexample): the fifth big-endian 32-bit word of the 1-D array
header is not `1`: at the concrete array `[42.13f]` the serializer writes
`0` there, refuting `lower_bound = 1`. -/
theorem array1d_fifth_header_word_not_one :
    readBE32 ((send (Value.array1d float4Oid [Scalar.float4 float4213bits])).drop 16)
      ≠ 1 := by decide

/-- C4 (amended): for every 1-D array value the serializer emits a header of
five big-endian 32-bit integers with `ndim = 1`, `has_nulls = 0`, then the
element oid, then the dimension length, then a fifth word equal to `0` (not
`1`), followed by each element prefixed with its 32-bit length. -/
theorem array1d_header_layout (oid : Nat) (es : List Scalar)
    (hoid : oid < 4294967296) (hlen : es.length < 4294967296) :
    readBE32 (send (Value.array1d oid es)) = 1 ∧
    readBE32 ((send (Value.array1d oid es)).drop 4) = 0 ∧
    readBE32 ((send (Value.array1d oid es)).drop 8) = oid ∧
    readBE32 ((send (Value.array1d oid es)).drop 12) = es.length ∧
    readBE32 ((send (Value.array1d oid es)).drop 16) = 0 ∧
    (send (Value.array1d oid es)).drop 20 = joinL (elemPieces es) := by
  simp only [send_array1d, beBytes_four, List.cons_append, List.nil_append,
    List.drop_succ_cons, List.drop_zero, readBE32]
  refine ⟨trivial, trivial, by omega, by omega, trivial, trivial⟩

/-- C4 (witness): the header layout at the concrete array `[42.13f]` with
element oid 700. -/
theorem array1d_header_layout_witness :
    readBE32 (send (Value.array1d float4Oid [Scalar.float4 float4213bits])) = 1 ∧
    readBE32 ((send (Value.array1d float4Oid [Scalar.float4 float4213bits])).drop 4) = 0 ∧
    readBE32 ((send (Value.array1d float4Oid [Scalar.float4 float4213bits])).drop 8)
      = float4Oid ∧
    readBE32 ((send (Value.array1d float4Oid [Scalar.float4 float4213bits])).drop 12)
      = [Scalar.float4 float4213bits].length ∧
    readBE32 ((send (Value.array1d float4Oid [Scalar.float4 float4213bits])).drop 16) = 0 ∧
    (send (Value.array1d float4Oid [Scalar.float4 float4213bits])).drop 20
      = joinL (elemPieces [Scalar.float4 float4213bits]) :=
  array1d_header_layout float4Oid [Scalar.float4 float4213bits] (by decide) (by decide)

/-- C8: the null sentinel values (`std::nullptr_t` and `std::nullopt_t`)
serialize to zero bytes: sending them leaves any output buffer unchanged,
whatever the stream state. -/
theorem null_values_send_nothing :
    (∀ (g : Bool) (buf : List Nat), sendToStream g buf Value.nullPtr = Except.ok buf) ∧
    (∀ (g : Bool) (buf : List Nat), sendToStream g buf Value.nullOpt = Except.ok buf) ∧
    send Value.nullPtr = [] ∧ send Value.nullOpt = [] :=
  ⟨fun _ _ => rfl, fun _ _ => rfl, rfl, rfl⟩

/-- C9: for every value whose encoding is non-empty (single-byte or
multi-byte), sending it to a stream whose buffer rejects writes raises
`ozo::system_error` instead of returning a buffer. -/
theorem send_bad_stream_raises (v : Value) (buf : List Nat) (h : send v ≠ []) :
    sendToStream false buf v = Except.error SysError.systemError := by
  unfold sendToStream
  cases hp : pieces v with
  | nil => exact absurd (by simp [send, hp, joinL]) h
  | cons p ps => simp [writePieces]

/-- C9 (witness): sending the single byte `char(42)` to the failing stream
raises `ozo::system_error`. -/
theorem send_bad_stream_raises_witness :
    send (Value.scalar (Scalar.int8 42)) ≠ [] ∧
    sendToStream false [] (Value.scalar (Scalar.int8 42))
      = Except.error SysError.systemError :=
  ⟨by decide, send_bad_stream_raises (Value.scalar (Scalar.int8 42)) [] (by decide)⟩

/-! ## Connect operation lemmas -/

/-- Unfolding: a wait resolving with an error completes with that error. -/
theorem runPoll_cons_err (w : ErrorCode) (ws : List ErrorCode) (ps : List PollResult)
    (d : WaitDir) (h : w ≠ ErrorCode.ok) :
    runPoll (w :: ws) ps d = ([waitEv d, Event.post], some w) := by
  simp [runPoll, h]

/-- Unfolding: wait ok, poll `Writing` → next wait is for write readiness. -/
theorem runPoll_cons_ok_writing (ws : List ErrorCode) (ps : List PollResult) (d : WaitDir) :
    runPoll (ErrorCode.ok :: ws) (PollResult.writing :: ps) d =
      ((waitEv d :: Event.callPoll :: (runPoll ws ps .write).1), (runPoll ws ps .write).2) := by
  simp [runPoll]

/-- Unfolding: wait ok, poll `Reading` → next wait is for read readiness. -/
theorem runPoll_cons_ok_reading (ws : List ErrorCode) (ps : List PollResult) (d : WaitDir) :
    runPoll (ErrorCode.ok :: ws) (PollResult.reading :: ps) d =
      ((waitEv d :: Event.callPoll :: (runPoll ws ps .read).1), (runPoll ws ps .read).2) := by
  simp [runPoll]

/-- Unfolding: wait ok, poll `Ok` → the operation completes with no error. -/
theorem runPoll_cons_ok_ok (ws : List ErrorCode) (ps : List PollResult) (d : WaitDir) :
    runPoll (ErrorCode.ok :: ws) (PollResult.ok :: ps) d =
      ([waitEv d, Event.callPoll, Event.post], some ErrorCode.ok) := by
  simp [runPoll]

/-- Unfolding: wait ok, poll `Active` → completes with `pq_connect_poll_failed`. -/
theorem runPoll_cons_ok_active (ws : List ErrorCode) (ps : List PollResult) (d : WaitDir) :
    runPoll (ErrorCode.ok :: ws) (PollResult.active :: ps) d =
      ([waitEv d, Event.callPoll, Event.post], some ErrorCode.pqConnectPollFailed) := by
  simp [runPoll]

/-- Unfolding: wait ok, poll `Failed` → completes with `pq_connect_poll_failed`. -/
theorem runPoll_cons_ok_failed (ws : List ErrorCode) (ps : List PollResult) (d : WaitDir) :
    runPoll (ErrorCode.ok :: ws) (PollResult.failed :: ps) d =
      ([waitEv d, Event.callPoll, Event.post], some ErrorCode.pqConnectPollFailed) := by
  simp [runPoll]

/-- The trace of the polling phase always begins with its entry wait. -/
theorem runPoll_trace_head (ws : List ErrorCode) (ps : List PollResult) (d : WaitDir) :
    ∃ t, (runPoll ws ps d).1 = waitEv d :: t := by
  cases ws with
  | nil => exact ⟨[], rfl⟩
  | cons w ws' =>
    by_cases hw : w = ErrorCode.ok
    · subst hw
      cases ps with
      | nil => exact ⟨[Event.callPoll], by simp [runPoll]⟩
      | cons p ps' =>
        cases p
        · exact ⟨_, by rw [runPoll_cons_ok_writing]⟩
        · exact ⟨_, by rw [runPoll_cons_ok_reading]⟩
        · exact ⟨_, by rw [runPoll_cons_ok_ok]⟩
        · exact ⟨_, by rw [runPoll_cons_ok_failed]⟩
        · exact ⟨_, by rw [runPoll_cons_ok_active]⟩
    · exact ⟨[Event.post], by rw [runPoll_cons_err _ _ _ _ hw]⟩

/-- A wait event counts as one readiness wait. -/
theorem countWait_waitEv_cons (d : WaitDir) (t : List Event) :
    countWait (waitEv d :: t) = countWait t + 1 := by
  cases d <;> simp [countWait, waitEv, isWaitEvent, List.filter]

/-- `callPoll` and `post` events start no readiness wait. -/
theorem countWait_aux_cons (t : List Event) :
    countWait (Event.callPoll :: t) = countWait t ∧
    countWait (Event.post :: t) = countWait t := by
  constructor <;> simp [countWait, isWaitEvent, List.filter]

/-- From any driver state, an all-ok wait script whose matching poll script
runs through I/O-demanding results and then hits `Active` completes the
operation with `pq_connect_poll_failed`, having started exactly one wait per
poll step and none after the `Active`. -/
theorem runPoll_active_completes (ps₁ : List PollResult) :
    ∀ (ws : List ErrorCode) (ps₂ : List PollResult) (d : WaitDir),
      (∀ p ∈ ps₁, p = PollResult.writing ∨ p = PollResult.reading) →
      ws.length = ps₁.length + 1 →
      (∀ w ∈ ws, w = ErrorCode.ok) →
      (runPoll ws (ps₁ ++ PollResult.active :: ps₂) d).2
          = some ErrorCode.pqConnectPollFailed ∧
      countWait (runPoll ws (ps₁ ++ PollResult.active :: ps₂) d).1 = ps₁.length + 1 := by
  induction ps₁ with
  | nil =>
    intro ws ps₂ d _ hlen hok
    match ws, hlen with
    | [w], _ =>
      have hw : w = ErrorCode.ok := hok w (by simp)
      subst hw
      rw [List.nil_append, runPoll_cons_ok_active]
      refine ⟨rfl, ?_⟩
      rw [countWait_waitEv_cons]
      simp [countWait, isWaitEvent, List.filter]
  | cons p ps₁' ih =>
    intro ws ps₂ d hio hlen hok
    match ws, hlen with
    | w :: ws', hlen =>
      have hw : w = ErrorCode.ok := hok w (by simp)
      subst hw
      have hws' : ∀ x ∈ ws', x = ErrorCode.ok := fun x hx => hok x (List.mem_cons_of_mem _ hx)
      have hlen' : ws'.length = ps₁'.length + 1 := by
        simpa using hlen
      have hio' : ∀ q ∈ ps₁', q = PollResult.writing ∨ q = PollResult.reading :=
        fun q hq => hio q (List.mem_cons_of_mem _ hq)
      rcases hio p (by simp) with hp | hp <;> subst hp
      · rw [List.cons_append, runPoll_cons_ok_writing]
        obtain ⟨h1, h2⟩ := ih ws' ps₂ .write hio' hlen' hws'
        refine ⟨h1, ?_⟩
        rw [countWait_waitEv_cons, (countWait_aux_cons _).1, h2]
        simp
      · rw [List.cons_append, runPoll_cons_ok_reading]
        obtain ⟨h1, h2⟩ := ih ws' ps₂ .read hio' hlen' hws'
        refine ⟨h1, ?_⟩
        rw [countWait_waitEv_cons, (countWait_aux_cons _).1, h2]
        simp

/-! ## Connect operation claims -/

/-- C1: after the preludes `start_connection` and `assign_socket` both
succeed (on a connection whose status is not bad), the first readiness wait
the connect operation starts is a write-readiness wait; and if that wait
resolves `Ok` and the following `connect_poll()` returns `Ok`, the operation
completes with the empty error code. -/
theorem connect_success_first_wait_write (s : Script) (ci : String)
    (hs : s.startResult = ErrorCode.ok) (hb : s.statusBad = false)
    (ha : s.assignResult = ErrorCode.ok) :
    firstWait (connectOp s ci).1 = some Event.waitWrite ∧
    (∀ ws ps, s.waitResults = ErrorCode.ok :: ws → s.pollResults = PollResult.ok :: ps →
      (connectOp s ci).2 = some ErrorCode.ok) := by
  constructor
  · obtain ⟨t, ht⟩ := runPoll_trace_head s.waitResults s.pollResults .write
    simp [connectOp, hs, hb, ha, firstWait, ht, isWaitEvent, waitEv, List.filter]
  · intro ws ps hws hps
    simp [connectOp, hs, hb, ha, hws, hps, runPoll_cons_ok_ok]

/-- C1 (witness): the literal successful-handshake script of the tests. -/
theorem connect_success_first_wait_write_witness :
    firstWait (connectOp ⟨ErrorCode.ok, ErrorCode.ok, false,
        [ErrorCode.ok], [PollResult.ok]⟩ "conninfo").1 = some Event.waitWrite ∧
    (∀ ws ps, ([ErrorCode.ok] : List ErrorCode) = ErrorCode.ok :: ws →
      ([PollResult.ok] : List PollResult) = PollResult.ok :: ps →
      (connectOp ⟨ErrorCode.ok, ErrorCode.ok, false,
        [ErrorCode.ok], [PollResult.ok]⟩ "conninfo").2 = some ErrorCode.ok) :=
  connect_success_first_wait_write
    ⟨ErrorCode.ok, ErrorCode.ok, false, [ErrorCode.ok], [PollResult.ok]⟩
    "conninfo" rfl rfl rfl

/-- C2: whenever `connect_poll()` returns `Active` the connect operation
completes (posted) with `pq_connect_poll_failed` — exactly as for `Failed` —
having started one wait per preceding I/O-demanding poll result and no
further wait after the `Active`; from any driver state the `Active` and
`Failed` continuations are identical. -/
theorem connect_poll_active_completes_failed (s : Script) (ci : String)
    (ps₁ ps₂ : List PollResult)
    (hs : s.startResult = ErrorCode.ok) (hb : s.statusBad = false)
    (ha : s.assignResult = ErrorCode.ok)
    (hpolls : s.pollResults = ps₁ ++ PollResult.active :: ps₂)
    (hio : ∀ p ∈ ps₁, p = PollResult.writing ∨ p = PollResult.reading)
    (hwlen : s.waitResults.length = ps₁.length + 1)
    (hwok : ∀ w ∈ s.waitResults, w = ErrorCode.ok) :
    (connectOp s ci).2 = some ErrorCode.pqConnectPollFailed ∧
    countWait (connectOp s ci).1 = ps₁.length + 1 ∧
    (∀ (ws' ws₂ : List ErrorCode) (qs qs₂ : List PollResult) (d : WaitDir),
      runPoll (ErrorCode.ok :: ws') (PollResult.active :: qs) d =
        runPoll (ErrorCode.ok :: ws₂) (PollResult.failed :: qs₂) d) := by
  obtain ⟨h1, h2⟩ := runPoll_active_completes ps₁ s.waitResults ps₂ .write hio hwlen hwok
  refine ⟨?_, ?_, ?_⟩
  · simpa [connectOp, hs, hb, ha, hpolls] using h1
  · have : (connectOp s ci).1 =
        Event.callStart ci :: Event.callAssign ::
          (runPoll s.waitResults s.pollResults .write).1 := by
      simp [connectOp, hs, hb, ha]
    rw [this, hpolls]
    have hcs : ∀ t, countWait (Event.callStart ci :: Event.callAssign :: t) = countWait t := by
      intro t; simp [countWait, isWaitEvent, List.filter]
    rw [hcs]
    exact h2
  · intro ws' ws₂ qs qs₂ d
    rw [runPoll_cons_ok_active, runPoll_cons_ok_failed]

/-- C2 (witness): the script with one `Writing` poll and then `Active`. -/
theorem connect_poll_active_completes_failed_witness :
    (connectOp ⟨ErrorCode.ok, ErrorCode.ok, false, [ErrorCode.ok, ErrorCode.ok],
        [PollResult.writing, PollResult.active]⟩ "conninfo").2
      = some ErrorCode.pqConnectPollFailed ∧
    countWait (connectOp ⟨ErrorCode.ok, ErrorCode.ok, false, [ErrorCode.ok, ErrorCode.ok],
        [PollResult.writing, PollResult.active]⟩ "conninfo").1 = 2 ∧
    (∀ (ws' ws₂ : List ErrorCode) (qs qs₂ : List PollResult) (d : WaitDir),
      runPoll (ErrorCode.ok :: ws') (PollResult.active :: qs) d =
        runPoll (ErrorCode.ok :: ws₂) (PollResult.failed :: qs₂) d) :=
  connect_poll_active_completes_failed
    ⟨ErrorCode.ok, ErrorCode.ok, false, [ErrorCode.ok, ErrorCode.ok],
      [PollResult.writing, PollResult.active]⟩
    "conninfo" [PollResult.writing] [] rfl rfl rfl rfl
    (by decide) (by decide) (by decide)

/-- C5: when `start_connection` succeeds (status not bad) but
`assign_socket` returns an error, the operation completes immediately —
the completion is posted with no wait started and no poll step taken — with
the error `assign_socket` returned (the `AssignSocketFailed` kind). -/
theorem connect_assign_socket_failure (s : Script) (ci : String)
    (hs : s.startResult = ErrorCode.ok) (hb : s.statusBad = false)
    (ha : s.assignResult ≠ ErrorCode.ok) :
    connectOp s ci = ([Event.callStart ci, Event.callAssign, Event.post],
      some s.assignResult) ∧
    countWait (connectOp s ci).1 = 0 ∧ countPoll (connectOp s ci).1 = 0 := by
  have h : connectOp s ci = ([Event.callStart ci, Event.callAssign, Event.post],
      some s.assignResult) := by
    simp [connectOp, hs, hb, ha]
  refine ⟨h, ?_, ?_⟩ <;> rw [h] <;> rfl

/-- C5 (witness): `assign_socket` returning the `AssignSocketFailed` error. -/
theorem connect_assign_socket_failure_witness :
    connectOp ⟨ErrorCode.ok, ErrorCode.assignSocketFailed, false, [], []⟩ "conninfo"
      = ([Event.callStart "conninfo", Event.callAssign, Event.post],
          some ErrorCode.assignSocketFailed) ∧
    countWait (connectOp ⟨ErrorCode.ok, ErrorCode.assignSocketFailed, false, [], []⟩
      "conninfo").1 = 0 ∧
    countPoll (connectOp ⟨ErrorCode.ok, ErrorCode.assignSocketFailed, false, [], []⟩
      "conninfo").1 = 0 :=
  connect_assign_socket_failure
    ⟨ErrorCode.ok, ErrorCode.assignSocketFailed, false, [], []⟩
    "conninfo" rfl rfl (by decide)

/-- C6: a connect operation entered with the connection status already bad
(after the `start_connection` prelude succeeded) completes immediately with
`pq_connection_status_bad`: the completion is posted with no `connect_poll`
step invoked and no readiness wait started (nor is `assign_socket` called). -/
theorem connect_status_bad_completes_immediately (s : Script) (ci : String)
    (hs : s.startResult = ErrorCode.ok) (hb : s.statusBad = true) :
    connectOp s ci = ([Event.callStart ci, Event.post],
      some ErrorCode.pqConnectionStatusBad) ∧
    countWait (connectOp s ci).1 = 0 ∧ countPoll (connectOp s ci).1 = 0 := by
  have h : connectOp s ci = ([Event.callStart ci, Event.post],
      some ErrorCode.pqConnectionStatusBad) := by
    simp [connectOp, hs, hb]
  refine ⟨h, ?_, ?_⟩ <;> rw [h] <;> rfl

/-- C6 (witness): the bad-status script of the tests. -/
theorem connect_status_bad_completes_immediately_witness :
    connectOp ⟨ErrorCode.ok, ErrorCode.ok, true, [], []⟩ "conninfo"
      = ([Event.callStart "conninfo", Event.post],
          some ErrorCode.pqConnectionStatusBad) ∧
    countWait (connectOp ⟨ErrorCode.ok, ErrorCode.ok, true, [], []⟩ "conninfo").1 = 0 ∧
    countPoll (connectOp ⟨ErrorCode.ok, ErrorCode.ok, true, [], []⟩ "conninfo").1 = 0 :=
  connect_status_bad_completes_immediately
    ⟨ErrorCode.ok, ErrorCode.ok, true, [], []⟩ "conninfo" rfl rfl

/-! ## Provider layer claims -/

/-- C7: using a Connection itself as a provider (pass-through) first resets
the error context to the empty string, then completes on the Connection's
own executor with an empty error code and that same Connection; no field
other than the error context is modified. -/
theorem forward_connection_resets_context_only (c : Connection) (t : TimeConstraint) :
    (forward_connection c t).ec = ErrorCode.ok ∧
    (forward_connection c t).executor = get_executor c ∧
    (forward_connection c t).value.errorContext = "" ∧
    (forward_connection c t).value.handle = c.handle ∧
    (forward_connection c t).value.executorId = c.executorId ∧
    (forward_connection c t).value.oidMap = c.oidMap ∧
    (forward_connection c t).value.statistics = c.statistics ∧
    (forward_connection c t).value = { c with errorContext := "" } :=
  ⟨rfl, rfl, rfl, rfl, rfl, rfl, rfl, rfl⟩

/-- C10: `get_connection(provider, token)` without a time constraint
initiates the same operation as `get_connection(provider, none, token)`:
both reduce to `async_get_connection` with the no-deadline constraint, for
every provider. -/
theorem get_connection_no_tc_equiv (p : Provider) :
    get_connection_no_tc p = get_connection p TimeConstraint.none ∧
    get_connection_no_tc p = async_get_connection p TimeConstraint.none ∧
    (∀ c, get_connection_no_tc (Provider.connection c)
      = forward_connection c TimeConstraint.none) :=
  ⟨rfl, rfl, fun _ => rfl⟩

end Apq
